import Mathlib

/-!
# Verification of the snooker physics engine (`src/unnamed/part_000`)

A shallow embedding of the analytical friction/collision/spin core of the
billiard physics engine, with JavaScript numbers modelled as real numbers
(the spec itself states its numeric properties "within floating tolerance",
so exact real arithmetic is the intended idealisation).

Each definition mirrors one function or getter of the source file; the
source line numbers are cited next to every definition.
-/

noncomputable section

namespace Bilard

/-- 3-component vector, mirroring the `{x, y, z}` records of the source. -/
structure Vec3 where
  x : ℝ
  y : ℝ
  z : ℝ

/-- 2-component planar vector, mirroring the `{x, z}` records returned by the
`surfaceVelocity` and `slipVelocity` getters. -/
structure Vec2 where
  x : ℝ
  z : ℝ

/-! ## Configuration constants (`PHYSICS_CONFIG`, lines 18-62) -/

def gravity : ℝ := 9.81
def table_friction_slide : ℝ := 0.025
def table_friction_roll : ℝ := 0.002
def nap_drift_factor : ℝ := 0.0002
/-- `nap_direction.x` (line 28). -/
def napDirX : ℝ := 0
/-- `nap_direction.z` (line 28). -/
def napDirZ : ℝ := -1
def ballMass : ℝ := 0.142
def ballRadius : ℝ := 0.02625
def restitution_ball_ball : ℝ := 0.98
def friction_ball_ball : ℝ := 0.04
/-- `cushion.height_ratio` (line 44). -/
def cushionHeightRatio : ℝ := 0.7
/-- `cushion.compression_factor` (line 45). -/
def compressionFactor : ℝ := 0.08
/-- `cushion.restitution_perpendicular` (line 47). -/
def restitutionPerpendicular : ℝ := 0.80
/-- `cushion.restitution_glancing` (line 48). -/
def restitutionGlancing : ℝ := 0.94
def velocity_stop : ℝ := 0.002
def angular_stop : ℝ := 0.03
def slip_threshold : ℝ := 0.008
/-- `collision.friction_accumulation` (line 60). -/
def frictionAccumulation : ℝ := 1.2

/-- `MOMENT_OF_INERTIA = (2/5) * m * R²` (lines 65-66). -/
def momentOfInertia : ℝ := (2 / 5) * ballMass * ballRadius * ballRadius

/-! ## Ball state (`class BallState`, lines 71-155) -/

/-- Motion phase; the source stores the strings `'stationary'`, `'sliding'`,
`'rolling'` (line 86), represented here as a closed enumeration. -/
inductive Phase where
  | stationary
  | sliding
  | rolling
deriving DecidableEq

structure BallState where
  position : Vec3
  velocity : Vec3
  angularVelocity : Vec3
  phase : Phase
  phaseTime : ℝ

/-- `get speed()` (lines 95-100): planar magnitude of the velocity. -/
def speed (s : BallState) : ℝ :=
  Real.sqrt (s.velocity.x * s.velocity.x + s.velocity.z * s.velocity.z)

/-- `get angularSpeed()` (lines 105-111). -/
def angularSpeed (s : BallState) : ℝ :=
  Real.sqrt (s.angularVelocity.x * s.angularVelocity.x +
    s.angularVelocity.y * s.angularVelocity.y +
    s.angularVelocity.z * s.angularVelocity.z)

/-- `get surfaceVelocity()` (lines 117-126): `(ωz·R, -ωx·R)`. -/
def surfaceVelocity (s : BallState) : Vec2 :=
  ⟨s.angularVelocity.z * ballRadius, -s.angularVelocity.x * ballRadius⟩

/-- `get slipVelocity()` (lines 132-138). -/
def slipVelocity (s : BallState) : Vec2 :=
  ⟨s.velocity.x - (surfaceVelocity s).x, s.velocity.z - (surfaceVelocity s).z⟩

/-- `get slipSpeed()` (lines 143-146). -/
def slipSpeed (s : BallState) : ℝ :=
  Real.sqrt ((slipVelocity s).x * (slipVelocity s).x +
    (slipVelocity s).z * (slipVelocity s).z)

/-! ## Phase integrator (`updateBallPhysics`, lines 169-324)

The imperative body mutates `state` section by section; each section is
functionalised below, with explicit data flow between sections. -/

/-- Sliding branch, linear part (lines 197-211): friction opposes the slip
direction, only 15% of the friction deceleration reaches linear velocity. -/
def slidingVelocityUpdate (s : BallState) (dt : ℝ) : Vec3 :=
  ⟨s.velocity.x - ((slipVelocity s).x / slipSpeed s) * (table_friction_slide * gravity * dt) * 0.15,
   s.velocity.y,
   s.velocity.z - ((slipVelocity s).z / slipSpeed s) * (table_friction_slide * gravity * dt) * 0.15⟩

/-- Sliding branch, angular part (lines 213-234).  `v` is the velocity as
already mutated by the linear part (the source reads `state.velocity` after
its in-place update at lines 210-211). -/
def slidingOmegaUpdate (s : BallState) (v : Vec3) (dt : ℝ) : Vec3 :=
  let angularChange := ((table_friction_slide * ballMass * gravity * ballRadius) / momentOfInertia) * dt * 3.0
  let angDiffX := (-v.z / ballRadius) - s.angularVelocity.x
  let angDiffZ := (v.x / ballRadius) - s.angularVelocity.z
  let angDiffMag := Real.sqrt (angDiffX * angDiffX + angDiffZ * angDiffZ)
  if angDiffMag > 0.01 then
    ⟨s.angularVelocity.x + (angDiffX / angDiffMag) * angularChange,
     s.angularVelocity.y,
     s.angularVelocity.z + (angDiffZ / angDiffMag) * angularChange⟩
  else s.angularVelocity

/-- Rolling branch, linear part (lines 239-256): constant deceleration
`μ_roll·g·dt` clamped at zero, applied as a uniform rescaling. -/
def rollingVelocityUpdate (s : BallState) (dt : ℝ) : Vec3 :=
  if speed s > 0.001 then
    let newSpeed := max 0 (speed s - table_friction_roll * gravity * dt)
    if speed s > 0.0001 then
      ⟨s.velocity.x * (newSpeed / speed s), s.velocity.y, s.velocity.z * (newSpeed / speed s)⟩
    else s.velocity
  else s.velocity

/-- Rolling branch, angular part (lines 258-261): spin forced to the no-slip
value of the already-updated velocity `v`. -/
def rollingOmegaUpdate (s : BallState) (v : Vec3) : Vec3 :=
  if speed s > 0.001 then
    ⟨-v.z / ballRadius, s.angularVelocity.y, v.x / ballRadius⟩
  else s.angularVelocity

/-- Swerve section (lines 278-311); `wy` is the side spin after the decay of
line 269. -/
def swerveUpdate (v : Vec3) (wy : ℝ) (dt : ℝ) : Vec3 :=
  let sp := Real.sqrt (v.x * v.x + v.z * v.z)
  if |wy| > 0.5 ∧ sp > 0.02 then
    let speedRatio := sp / 1.5
    let bellCurve := Real.exp (-(speedRatio - 1) ^ 2 / (1.2 * 1.2))
    let lowSpeedFactor := min 1 (sp / 0.3)
    let swerveForce := wy * (0.00035 * bellCurve * lowSpeedFactor) * dt
    let speedDamping := 1 / (1 + sp * 0.3)
    ⟨v.x + (-v.z / sp) * swerveForce * sp * speedDamping,
     v.y,
     v.z + (v.x / sp) * swerveForce * sp * speedDamping⟩
  else v

/-- `applyNapEffect` (lines 332-352), functionalised over the velocity it
mutates. -/
def applyNapEffect (v : Vec3) (dt : ℝ) : Vec3 :=
  let sp := Real.sqrt (v.x * v.x + v.z * v.z)
  if sp < 0.05 ∨ sp > 0.5 then v
  else
    let velDirX := v.x / sp
    let velDirZ := v.z / sp
    let napDot := velDirX * napDirX + velDirZ * napDirZ
    if napDot < -0.3 then
      let extraDecel := nap_drift_factor * |napDot| * gravity * dt
      ⟨v.x - velDirX * extraDecel, v.y, v.z - velDirZ * extraDecel⟩
    else v

/-- `updateBallPhysics(state, dt)` (lines 169-324). -/
def updateBallPhysics (s : BallState) (dt : ℝ) : BallState :=
  -- stop check, lines 176-182
  if speed s < velocity_stop ∧ angularSpeed s < angular_stop then
    { s with velocity := ⟨0, 0, 0⟩, angularVelocity := ⟨0, 0, 0⟩, phase := Phase.stationary }
  else
    -- regime selection on slip speed, lines 193 / 235
    let v1 := if slipSpeed s > slip_threshold then slidingVelocityUpdate s dt
              else rollingVelocityUpdate s dt
    let w1 := if slipSpeed s > slip_threshold then slidingOmegaUpdate s v1 dt
              else rollingOmegaUpdate s v1
    let ph := if slipSpeed s > slip_threshold then Phase.sliding else Phase.rolling
    -- side-spin decay, lines 267-269
    let wy := w1.y * (0.995 : ℝ) ^ (dt * 60)
    -- swerve, lines 278-311 (reads the decayed side spin)
    let v2 := swerveUpdate v1 wy dt
    -- nap effect, line 315
    let v3 := applyNapEffect v2 dt
    -- position integration and phase time, lines 318-321
    { position := ⟨s.position.x + v3.x * dt, s.position.y, s.position.z + v3.z * dt⟩,
      velocity := v3,
      angularVelocity := ⟨w1.x, wy, w1.z⟩,
      phase := ph,
      phaseTime := s.phaseTime + dt }

/-! ## Ball-ball collision (`calculateBallCollision`, lines 376-517) -/

/-- Center distance of a pair, as computed at lines 388-390. -/
def pairDist (a b : BallState) : ℝ :=
  Real.sqrt ((b.position.x - a.position.x) * (b.position.x - a.position.x) +
    (b.position.z - a.position.z) * (b.position.z - a.position.z))

/-- The closing velocity `dvn` of lines 429-433 (relative velocity projected
on the collision normal), written with a single division. -/
def closingVelocity (a b : BallState) : ℝ :=
  ((a.velocity.x - b.velocity.x) * (b.position.x - a.position.x) +
   (a.velocity.z - b.velocity.z) * (b.position.z - a.position.z)) / pairDist a b

/-- The total tangential contact velocity `totalTangentVel` of lines 439-453
(relative tangential velocity plus the striking ball's side-spin surface
speed), written with a single division. -/
def totalTangentVel (a b : BallState) : ℝ :=
  ((a.velocity.x - b.velocity.x) * (-(b.position.z - a.position.z)) +
   (a.velocity.z - b.velocity.z) * (b.position.x - a.position.x)) / pairDist a b +
  a.angularVelocity.y * ballRadius

/-- `calculateBallCollision(ballA, ballB)` (lines 376-517).  The source
returns `{ballA, ballB, throwAngle, contactDuration}`; the two diagnostic
fields are pure functions of the returned states' inputs and are not part of
the ball state, so the embedding returns the pair of states. -/
def calculateBallCollision (ballA ballB : BallState) : BallState × BallState :=
  let m := ballMass
  let R := ballRadius
  let e := restitution_ball_ball
  let mu := friction_ball_ball
  let I := momentOfInertia
  let dist := pairDist ballA ballB
  -- gating, line 392
  if dist < 0.0001 ∨ dist > R * 2.5 then (ballA, ballB)
  else
    let nx := (ballB.position.x - ballA.position.x) / dist
    let nz := (ballB.position.z - ballA.position.z) / dist
    -- penetration correction, lines 398-422 (only the positions move; the
    -- recomputed dx/dz/dist of lines 419-421 are not read afterwards, and
    -- the `halfPen` of line 403 is never read at all)
    let minDist := R * 2
    let speedA := Real.sqrt (ballA.velocity.x * ballA.velocity.x + ballA.velocity.z * ballA.velocity.z)
    let speedB := Real.sqrt (ballB.velocity.x * ballB.velocity.x + ballB.velocity.z * ballB.velocity.z)
    let totalSpeed := speedA + speedB + 0.001
    let ratioA := speedB / totalSpeed
    let ratioB := speedA / totalSpeed
    let penetration := minDist - dist
    let posA : Vec3 :=
      if dist < minDist then
        ⟨ballA.position.x - nx * penetration * ratioA, ballA.position.y,
         ballA.position.z - nz * penetration * ratioA⟩
      else ballA.position
    let posB : Vec3 :=
      if dist < minDist then
        ⟨ballB.position.x + nx * penetration * ratioB, ballB.position.y,
         ballB.position.z + nz * penetration * ratioB⟩
      else ballB.position
    -- tangent, lines 425-426
    let tx := -nz
    let tz := nx
    -- relative velocity, lines 429-439
    let dvx := ballA.velocity.x - ballB.velocity.x
    let dvz := ballA.velocity.z - ballB.velocity.z
    let dvn := dvx * nx + dvz * nz
    -- separating pairs return (with the already corrected positions), line 436
    if dvn ≤ 0 then ({ ballA with position := posA }, { ballB with position := posB })
    else
      let dvt := dvx * tx + dvz * tz
      -- normal impulse, line 443
      let normalImpulse := (1 + e) * m * dvn / 2
      -- throw (tangential) impulse, lines 450-469
      let surfaceVelFromSpin := ballA.angularVelocity.y * R
      let totalTangent := dvt + surfaceVelFromSpin
      let maxFrictionImpulse := mu * normalImpulse * frictionAccumulation
      let frictionImpulse :=
        if |totalTangent| > 0.01 then
          let desiredImpulse := m * totalTangent * 0.5
          let base := Real.sign totalTangent * min maxFrictionImpulse |desiredImpulse|
          let speedFactor := min 1.0 (2.0 / (dvn + 0.5))
          base * (1.0 + (speedFactor - 1.0) * 0.3)
        else 0
      -- impulses applied equal and opposite, lines 475-479
      let vAx := ballA.velocity.x - (normalImpulse * nx + frictionImpulse * tx) / m
      let vAz := ballA.velocity.z - (normalImpulse * nz + frictionImpulse * tz) / m
      let vBx := ballB.velocity.x + (normalImpulse * nx + frictionImpulse * tx) / m
      let vBz := ballB.velocity.z + (normalImpulse * nz + frictionImpulse * tz) / m
      -- spin transfer, lines 484-491
      let angularChange := frictionImpulse * R / I
      let wAy := ballA.angularVelocity.y * 0.90 - angularChange * 0.20
      let wBy := ballB.angularVelocity.y + angularChange * 0.15
      -- object-ball rolling spin, lines 496-503 (guarded by its new speed)
      let speedB2 := Real.sqrt (vBx * vBx + vBz * vBz)
      let wBx := if speedB2 > 0.01 then -vBz / R * 0.92 else ballB.angularVelocity.x
      let wBz := if speedB2 > 0.01 then vBx / R * 0.92 else ballB.angularVelocity.z
      let phB := if speedB2 > 0.01 then Phase.sliding else ballB.phase
      -- striking-ball spin damping and phases, lines 506-511
      (⟨posA, ⟨vAx, ballA.velocity.y, vAz⟩,
        ⟨ballA.angularVelocity.x * 0.95, wAy, ballA.angularVelocity.z * 0.95⟩,
        Phase.sliding, 0⟩,
       ⟨posB, ⟨vBx, ballB.velocity.y, vBz⟩, ⟨wBx, wBy, wBz⟩, phB, 0⟩)

/-! ## Cushion rebound (`calculateCushionRebound`, lines 537-646) -/

/-- The four cushions of the `switch` at lines 544-549. -/
inductive Cushion where
  | left
  | right
  | top
  | bottom
deriving DecidableEq

/-- Two-argument arctangent, mirroring `Math.atan2(y, x)`. -/
def atan2 (y x : ℝ) : ℝ :=
  if 0 < x then Real.arctan (y / x)
  else if x < 0 then
    (if 0 ≤ y then Real.arctan (y / x) + Real.pi else Real.arctan (y / x) - Real.pi)
  else
    (if 0 < y then Real.pi / 2 else if y < 0 then -(Real.pi / 2) else 0)

/-- The four-segment angle-dependent restitution of lines 575-594, before the
compression loss. -/
def effectiveCorBase (angleDeg : ℝ) : ℝ :=
  if angleDeg < 8 then
    0.60 + (0.5 - 0.5 * Real.cos ((angleDeg / 8) * Real.pi)) * (restitutionPerpendicular - 0.60)
  else if angleDeg < 30 then
    restitutionPerpendicular + ((angleDeg - 8) / 22) * (0.88 - restitutionPerpendicular)
  else if angleDeg < 60 then
    0.88 + ((angleDeg - 30) / 30) * (restitutionGlancing - 0.88)
  else restitutionGlancing

/-- The effective coefficient of restitution computed by
`calculateCushionRebound` (lines 575-603): the angle-dependent base, scaled
by the speed-dependent compression loss (lines 598-600) and clamped to
`[0.65, 0.96]` (line 603). -/
def effectiveCor (angleDeg impactSpeed : ℝ) : ℝ :=
  max 0.65 (min 0.96
    (effectiveCorBase angleDeg * (1 - compressionFactor * min 1 (impactSpeed / 6) * 0.3)))

/-- The angle-dependent tangential retention of lines 620-626. -/
def tangentRetention (angleDeg : ℝ) : ℝ :=
  if angleDeg < 8 then 0.88 + (angleDeg / 8) * 0.08 else 0.97

/-- `normalX` of the `switch` at lines 543-549 (inward rail normal). -/
def cushionNormalX : Cushion → ℝ
  | Cushion.left => 1
  | Cushion.right => -1
  | Cushion.top => 0
  | Cushion.bottom => 0

/-- `normalZ` of the `switch` at lines 543-549. -/
def cushionNormalZ : Cushion → ℝ
  | Cushion.left => 0
  | Cushion.right => 0
  | Cushion.top => 1
  | Cushion.bottom => -1

/-- The incidence angle in degrees (lines 552-563): velocity decomposed
against the rail normal/tangent, then `atan2(|v_t|, |v_n|)·180/π`. -/
def cushionAngleDeg (ball : BallState) (cushion : Cushion) : ℝ :=
  let tangentX := -cushionNormalZ cushion
  let tangentZ := cushionNormalX cushion
  let velNormal := ball.velocity.x * cushionNormalX cushion + ball.velocity.z * cushionNormalZ cushion
  let velTangent := ball.velocity.x * tangentX + ball.velocity.z * tangentZ
  atan2 |velTangent| |velNormal| * 180 / Real.pi

/-- `calculateCushionRebound(ball, cushion, impactSpeed)` (lines 537-646). -/
def calculateCushionRebound (ball : BallState) (cushion : Cushion) (impactSpeed : ℝ) : BallState :=
  let R := ballRadius
  -- inward normal, lines 543-549
  let normalX := cushionNormalX cushion
  let normalZ := cushionNormalZ cushion
  let tangentX := -normalZ
  let tangentZ := normalX
  -- velocity components, lines 556-557
  let velNormal := ball.velocity.x * normalX + ball.velocity.z * normalZ
  let velTangent := ball.velocity.x * tangentX + ball.velocity.z * tangentZ
  -- incidence angle, lines 562-563
  let angleDeg := cushionAngleDeg ball cushion
  let effCor := effectiveCor angleDeg impactSpeed
  -- side-spin influence, lines 607-608
  let spinInfluence := ball.angularVelocity.y * R * 0.15
  -- top/back-spin grip, lines 611-612
  let topBackSpin := ball.angularVelocity.x * tangentZ - ball.angularVelocity.z * tangentX
  let gripFactor := 1 + topBackSpin * R * cushionHeightRatio * 0.012
  -- new velocity components, lines 616-627
  let newVelNormal := -velNormal * effCor
  let newVelTangent := velTangent * tangentRetention angleDeg * gripFactor + spinInfluence
  -- recombination and spin damping, lines 630-643
  { ball with
    velocity := ⟨newVelNormal * normalX + newVelTangent * tangentX,
                 ball.velocity.y,
                 newVelNormal * normalZ + newVelTangent * tangentZ⟩,
    angularVelocity := ⟨ball.angularVelocity.x * 0.95,
                        ball.angularVelocity.y * 0.80,
                        ball.angularVelocity.z * 0.95⟩,
    phase := Phase.sliding,
    phaseTime := 0 }

/-! ## Shot application (`applyShot`, lines 662-734) -/

/-- `applyShot(ball, power, angle, spinX, spinY, maxSpeed)` (lines 662-734).
The `naturalAngVelX/Z` of lines 683-684 are never read and are omitted. -/
def applyShot (ball : BallState) (power angle spinX spinY maxSpeed : ℝ) : BallState :=
  let R := ballRadius
  let speed0 := power * maxSpeed
  let dirX := Real.sin angle
  let dirZ := Real.cos angle
  let naturalOmega := speed0 / R
  let rotAxisX := -dirZ
  let rotAxisZ := dirX
  let spinMagnitude := spinY * naturalOmega * 2.5
  -- the exact-equality center-ball branch, line 718
  let centerBallBoost := if spinY = 0 then naturalOmega * 0.4 else 0
  { ball with
    velocity := ⟨dirX * speed0, ball.velocity.y, dirZ * speed0⟩,
    angularVelocity := ⟨rotAxisX * (spinMagnitude + centerBallBoost),
                        spinX * speed0 * 8,
                        rotAxisZ * (spinMagnitude + centerBallBoost)⟩,
    phase := Phase.sliding,
    phaseTime := 0 }

/-! ## Trajectory prediction (`predictTrajectory`, lines 747-769) -/

/-- One sample of the predicted trajectory (lines 754-758). -/
structure TrajPoint where
  x : ℝ
  z : ℝ
  phase : Phase

/-- The prediction loop of lines 753-766: record a sample, step the
integrator, stop once the speed falls below the stop threshold.  The fuel is
the remaining number of loop iterations. -/
def predictAux : ℕ → BallState → ℝ → List TrajPoint
  | 0, _, _ => []
  | n + 1, s, dt =>
    let pt : TrajPoint := ⟨s.position.x, s.position.z, s.phase⟩
    let s2 := updateBallPhysics s dt
    if speed s2 < velocity_stop then [pt] else pt :: predictAux n s2 dt

/-- `predictTrajectory(initialState, duration, dt)` (lines 747-769), with
`steps = Math.ceil(duration / dt)`. -/
def predictTrajectory (initialState : BallState) (duration dt : ℝ) : List TrajPoint :=
  predictAux (Int.ceil (duration / dt)).toNat initialState dt

/-! ## Diagnostic energies (`getBallDiagnostics`, lines 787-788) -/

/-- `kineticEnergy` diagnostic: `0.5·m·speed²` (line 787). -/
def kineticEnergy (s : BallState) : ℝ := 0.5 * ballMass * speed s * speed s

/-- `rotationalEnergy` diagnostic: `0.5·I·angularSpeed²` (line 788). -/
def rotationalEnergy (s : BallState) : ℝ :=
  0.5 * momentOfInertia * angularSpeed s * angularSpeed s

/-! ## Shared helper lemmas -/

/-- Evaluation of square roots at perfect squares. -/
lemma sqrt_eval {a b : ℝ} (hb : 0 ≤ b) (h : a = b * b) : Real.sqrt a = b := by
  rw [h, Real.sqrt_mul_self hb]

/-- The `dvn` expression of the collision body equals `closingVelocity`. -/
lemma dvn_rewrite (a b : BallState) :
    (a.velocity.x - b.velocity.x) * ((b.position.x - a.position.x) / pairDist a b) +
      (a.velocity.z - b.velocity.z) * ((b.position.z - a.position.z) / pairDist a b)
    = closingVelocity a b := by
  unfold closingVelocity
  ring

/-- The `dvt + surfaceVelFromSpin` expression of the collision body equals
`totalTangentVel`. -/
lemma ttv_rewrite (a b : BallState) :
    (a.velocity.x - b.velocity.x) * (-((b.position.z - a.position.z) / pairDist a b)) +
      (a.velocity.z - b.velocity.z) * ((b.position.x - a.position.x) / pairDist a b) +
      a.angularVelocity.y * ballRadius
    = totalTangentVel a b := by
  unfold totalTangentVel
  ring

/-! ## C10 — `applyShot` rolling spin -/

/-- **C10.** For every call to `applyShot`, the rolling-plane angular
velocity is the unit axis `(-cos angle, sin angle)` perpendicular to the shot
direction `(sin angle, cos angle)`, scaled by
`spinY · (power·maxSpeed/R) · 2.5`, plus a forward-roll bias
`0.4 · (power·maxSpeed/R)` exactly when `spinY = 0` and for no other value of
`spinY` (the `if` below), so the mapping `spinY ↦ rolling spin` is
discontinuous at `0`. -/
theorem applyShot_rolling_spin (ball : BallState) (power angle spinX spinY maxSpeed : ℝ) :
    (applyShot ball power angle spinX spinY maxSpeed).angularVelocity.x
      = -Real.cos angle * (spinY * (power * maxSpeed / ballRadius) * 2.5
          + (if spinY = 0 then 0.4 * (power * maxSpeed / ballRadius) else 0))
    ∧ (applyShot ball power angle spinX spinY maxSpeed).angularVelocity.z
      = Real.sin angle * (spinY * (power * maxSpeed / ballRadius) * 2.5
          + (if spinY = 0 then 0.4 * (power * maxSpeed / ballRadius) else 0)) := by
  unfold applyShot
  constructor <;> (dsimp only; split_ifs <;> ring)

/-! ## C1 — momentum conservation in `calculateBallCollision` -/

/-- **C1.** For every pair of `BallState`s on which `calculateBallCollision`
performs an impulse exchange (center distance within the gating range
`[0.0001, 2.5R]`, closing velocity `> 0`), the total linear momentum in the
table plane is exactly conserved, because the normal and tangential impulses
are applied equal and opposite to the two balls. -/
theorem collision_momentum (a b : BallState)
    (h1 : 0.0001 ≤ pairDist a b) (h2 : pairDist a b ≤ ballRadius * 2.5)
    (h3 : 0 < closingVelocity a b) :
    ballMass * (calculateBallCollision a b).1.velocity.x +
        ballMass * (calculateBallCollision a b).2.velocity.x
      = ballMass * a.velocity.x + ballMass * b.velocity.x
    ∧ ballMass * (calculateBallCollision a b).1.velocity.z +
        ballMass * (calculateBallCollision a b).2.velocity.z
      = ballMass * a.velocity.z + ballMass * b.velocity.z := by
  have hgate : ¬(pairDist a b < 0.0001 ∨ pairDist a b > ballRadius * 2.5) := by
    push_neg
    exact ⟨h1, h2⟩
  have hdvn : ¬(closingVelocity a b ≤ 0) := not_le.mpr h3
  simp only [calculateBallCollision, dvn_rewrite]
  rw [if_neg hgate, if_neg hdvn]
  constructor <;> (dsimp only; ring)

/-- Head-on witness pair: ball A at the origin moving at 1 m/s toward ball B
resting at distance exactly `2R`. -/
def headA : BallState := ⟨⟨0, 0, 0⟩, ⟨1, 0, 0⟩, ⟨0, 0, 0⟩, Phase.rolling, 0⟩

def headB : BallState := ⟨⟨0.0525, 0, 0⟩, ⟨0, 0, 0⟩, ⟨0, 0, 0⟩, Phase.stationary, 0⟩

lemma headDist : pairDist headA headB = 0.0525 := by
  unfold pairDist headA headB
  dsimp only
  exact sqrt_eval (by norm_num) (by norm_num)

lemma headClosing : closingVelocity headA headB = 1 := by
  unfold closingVelocity
  rw [headDist]
  unfold headA headB
  dsimp only
  norm_num

/-- Witness for C1: the head-on pair satisfies the gating hypotheses and
momentum is conserved. -/
theorem collision_momentum_witness :
    0.0001 ≤ pairDist headA headB ∧ 0 < closingVelocity headA headB ∧
    ballMass * (calculateBallCollision headA headB).1.velocity.x +
        ballMass * (calculateBallCollision headA headB).2.velocity.x
      = ballMass * headA.velocity.x + ballMass * headB.velocity.x := by
  have h1 : 0.0001 ≤ pairDist headA headB := by rw [headDist]; norm_num
  have h2 : pairDist headA headB ≤ ballRadius * 2.5 := by
    rw [headDist]; unfold ballRadius; norm_num
  have h3 : 0 < closingVelocity headA headB := by rw [headClosing]; norm_num
  exact ⟨h1, h3, (collision_momentum headA headB h1 h2 h3).1⟩

/-! ## C8 — cushion CoR monotonicity on `[8°, 90°)` -/

lemma effectiveCorBase_mono {a b : ℝ} (ha : 8 ≤ a) (hab : a ≤ b) :
    effectiveCorBase a ≤ effectiveCorBase b := by
  unfold effectiveCorBase restitutionPerpendicular restitutionGlancing
  have h8a : ¬(a < 8) := not_lt.mpr ha
  have h8b : ¬(b < 8) := not_lt.mpr (le_trans ha hab)
  rw [if_neg h8a, if_neg h8b]
  by_cases ha30 : a < 30
  · rw [if_pos ha30]
    by_cases hb30 : b < 30
    · rw [if_pos hb30]; linarith
    · rw [if_neg hb30]
      push_neg at hb30
      by_cases hb60 : b < 60
      · rw [if_pos hb60]; nlinarith
      · rw [if_neg hb60]; nlinarith
  · rw [if_neg ha30]
    push_neg at ha30
    have hb30 : ¬(b < 30) := not_lt.mpr (le_trans ha30 hab)
    rw [if_neg hb30]
    by_cases ha60 : a < 60
    · rw [if_pos ha60]
      by_cases hb60 : b < 60
      · rw [if_pos hb60]; linarith
      · rw [if_neg hb60]; push_neg at hb60; nlinarith
    · rw [if_neg ha60]
      push_neg at ha60
      have hb60 : ¬(b < 60) := not_lt.mpr (le_trans ha60 hab)
      rw [if_neg hb60]

/-- **C8.** For every fixed impact speed, the effective coefficient of
restitution computed by `calculateCushionRebound` is a non-decreasing
function of the incidence angle on `[8°, 90°)`: the angle-dependent base is
piecewise-linearly increasing there, the speed-dependent compression factor
is a positive constant in the angle, and the final clamp is monotone. -/
theorem effectiveCor_mono (impactSpeed : ℝ) {a b : ℝ}
    (ha : 8 ≤ a) (hab : a ≤ b) (hb : b < 90) :
    effectiveCor a impactSpeed ≤ effectiveCor b impactSpeed := by
  unfold effectiveCor
  have hM : 0 ≤ 1 - compressionFactor * min 1 (impactSpeed / 6) * 0.3 := by
    unfold compressionFactor
    have hmin : min 1 (impactSpeed / 6) ≤ 1 := min_le_left _ _
    nlinarith
  have hbase := effectiveCorBase_mono ha hab
  have hmul := mul_le_mul_of_nonneg_right hbase hM
  exact max_le_max le_rfl (min_le_min le_rfl hmul)

/-- Witness for C8 at angles 10° and 40°, impact speed 1. -/
theorem effectiveCor_mono_witness :
    (8 : ℝ) ≤ 10 ∧ (10 : ℝ) ≤ 40 ∧ (40 : ℝ) < 90 ∧
      effectiveCor 10 1 ≤ effectiveCor 40 1 :=
  ⟨by norm_num, by norm_num, by norm_num,
    effectiveCor_mono 1 (by norm_num) (by norm_num) (by norm_num)⟩

/-! ## C3 — behaviour on degenerate, out-of-range and separating pairs -/

/-- **C3 (amended).** Pairs at center distance below `0.0001` or above
`2.5R` are returned completely unchanged.  Separating pairs (closing
velocity `≤ 0`) inside the gating range keep their velocities, angular
velocities, phases, and phase times, and their positions too are unchanged
when the distance is at least `2R`; but when the distance is below `2R` the
penetration correction (which runs before the closing-velocity test) still
moves the positions. -/
theorem collision_precondition_noop (a b : BallState) :
    (pairDist a b < 0.0001 ∨ pairDist a b > ballRadius * 2.5 →
      calculateBallCollision a b = (a, b))
    ∧ (0.0001 ≤ pairDist a b → pairDist a b ≤ ballRadius * 2.5 →
        closingVelocity a b ≤ 0 →
        ((calculateBallCollision a b).1.velocity = a.velocity ∧
          (calculateBallCollision a b).1.angularVelocity = a.angularVelocity ∧
          (calculateBallCollision a b).1.phase = a.phase ∧
          (calculateBallCollision a b).1.phaseTime = a.phaseTime ∧
          (calculateBallCollision a b).2.velocity = b.velocity ∧
          (calculateBallCollision a b).2.angularVelocity = b.angularVelocity ∧
          (calculateBallCollision a b).2.phase = b.phase ∧
          (calculateBallCollision a b).2.phaseTime = b.phaseTime)
        ∧ (ballRadius * 2 ≤ pairDist a b → calculateBallCollision a b = (a, b))) := by
  constructor
  · intro h
    simp only [calculateBallCollision]
    rw [if_pos h]
  · intro h1 h2 h3
    have hgate : ¬(pairDist a b < 0.0001 ∨ pairDist a b > ballRadius * 2.5) := by
      push_neg
      exact ⟨h1, h2⟩
    refine ⟨?_, ?_⟩
    · simp only [calculateBallCollision, dvn_rewrite]
      rw [if_neg hgate, if_pos h3]
      exact ⟨rfl, rfl, rfl, rfl, rfl, rfl, rfl, rfl⟩
    · intro h2R
      have hpen : ¬(pairDist a b < ballRadius * 2) := not_lt.mpr h2R
      simp only [calculateBallCollision, dvn_rewrite]
      rw [if_neg hgate, if_pos h3, if_neg hpen, if_neg hpen]

/-- Separating but overlapping pair: the balls overlap at distance `R` and
move directly apart at 1 m/s each. -/
def c3A : BallState := ⟨⟨0, 0, 0⟩, ⟨-1, 0, 0⟩, ⟨0, 0, 0⟩, Phase.rolling, 0⟩

def c3B : BallState := ⟨⟨0.02625, 0, 0⟩, ⟨1, 0, 0⟩, ⟨0, 0, 0⟩, Phase.rolling, 0⟩

lemma c3Dist : pairDist c3A c3B = 0.02625 := by
  unfold pairDist c3A c3B
  dsimp only
  exact sqrt_eval (by norm_num) (by norm_num)

lemma c3Closing : closingVelocity c3A c3B = -2 := by
  unfold closingVelocity
  rw [c3Dist]
  unfold c3A c3B
  dsimp only
  norm_num

/-- Counterexample to C3 as stated: a separating pair (closing velocity
`≤ 0`) inside the gating range whose position is nevertheless changed by
`calculateBallCollision` (the penetration correction runs first). -/
theorem collision_separating_moves_position :
    0.0001 ≤ pairDist c3A c3B ∧ pairDist c3A c3B ≤ ballRadius * 2.5 ∧
    closingVelocity c3A c3B ≤ 0 ∧
    (calculateBallCollision c3A c3B).1.position.x ≠ c3A.position.x := by
  have h1 : 0.0001 ≤ pairDist c3A c3B := by rw [c3Dist]; norm_num
  have h2 : pairDist c3A c3B ≤ ballRadius * 2.5 := by
    rw [c3Dist]; unfold ballRadius; norm_num
  have h3 : closingVelocity c3A c3B ≤ 0 := by rw [c3Closing]; norm_num
  refine ⟨h1, h2, h3, ?_⟩
  have hgate : ¬(pairDist c3A c3B < 0.0001 ∨ pairDist c3A c3B > ballRadius * 2.5) := by
    push_neg
    exact ⟨h1, h2⟩
  have hpen : pairDist c3A c3B < ballRadius * 2 := by
    rw [c3Dist]; unfold ballRadius; norm_num
  simp only [calculateBallCollision, dvn_rewrite]
  rw [if_neg hgate, if_pos h3]
  dsimp only
  rw [if_pos hpen, c3Dist]
  unfold c3A c3B ballRadius
  dsimp only
  rw [sqrt_eval (b := 1) (by norm_num) (by norm_num),
      sqrt_eval (b := 1) (by norm_num) (by norm_num)]
  norm_num

/-- Separating pair exactly at distance `2R` (no overlap). -/
def c3wA : BallState := ⟨⟨0, 0, 0⟩, ⟨-1, 0, 0⟩, ⟨0, 0, 0⟩, Phase.rolling, 0⟩

def c3wB : BallState := ⟨⟨0.0525, 0, 0⟩, ⟨1, 0, 0⟩, ⟨0, 0, 0⟩, Phase.rolling, 0⟩

lemma c3wDist : pairDist c3wA c3wB = 0.0525 := by
  unfold pairDist c3wA c3wB
  dsimp only
  exact sqrt_eval (by norm_num) (by norm_num)

/-- Witness for C3 (amended): a separating pair at distance exactly `2R` is
returned completely unchanged. -/
theorem collision_precondition_noop_witness :
    closingVelocity c3wA c3wB ≤ 0 ∧
    calculateBallCollision c3wA c3wB = (c3wA, c3wB) := by
  have h1 : 0.0001 ≤ pairDist c3wA c3wB := by rw [c3wDist]; norm_num
  have h2 : pairDist c3wA c3wB ≤ ballRadius * 2.5 := by
    rw [c3wDist]; unfold ballRadius; norm_num
  have h3 : closingVelocity c3wA c3wB ≤ 0 := by
    unfold closingVelocity
    rw [c3wDist]
    unfold c3wA c3wB
    dsimp only
    norm_num
  have h2R : ballRadius * 2 ≤ pairDist c3wA c3wB := by
    rw [c3wDist]; unfold ballRadius; norm_num
  exact ⟨h3, ((collision_precondition_noop c3wA c3wB).2 h1 h2 h3).2 h2R⟩

/-! ## C4 — penetration correction under-separates -/

/-- Overlapping approaching pair: A moves at 1 m/s toward resting B which
overlaps it at distance `R`. -/
def c4A : BallState := ⟨⟨0, 0, 0⟩, ⟨1, 0, 0⟩, ⟨0, 0, 0⟩, Phase.sliding, 0⟩

def c4B : BallState := ⟨⟨0.02625, 0, 0⟩, ⟨0, 0, 0⟩, ⟨0, 0, 0⟩, Phase.stationary, 0⟩

lemma c4Dist : pairDist c4A c4B = 0.02625 := by
  unfold pairDist c4A c4B
  dsimp only
  exact sqrt_eval (by norm_num) (by norm_num)

lemma c4Closing : closingVelocity c4A c4B = 1 := by
  unfold closingVelocity
  rw [c4Dist]
  unfold c4A c4B
  dsimp only
  norm_num

/-- **C4.** The penetration correction does **not** separate the balls to
`2R` plus a safety margin: on an overlapping colliding pair it moves the
centers apart by only `penetration·(speedA+speedB)/(speedA+speedB+0.001)`
(the `halfPen` margin variable of line 403 is computed but never used), so
the resulting center distance is still strictly below `2R`. -/
theorem collision_penetration_under_separates :
    pairDist c4A c4B < ballRadius * 2 ∧ 0 < closingVelocity c4A c4B ∧
    pairDist (calculateBallCollision c4A c4B).1 (calculateBallCollision c4A c4B).2
      < ballRadius * 2 := by
  have h1 : 0.0001 ≤ pairDist c4A c4B := by rw [c4Dist]; norm_num
  have h2 : pairDist c4A c4B ≤ ballRadius * 2.5 := by
    rw [c4Dist]; unfold ballRadius; norm_num
  have hgate : ¬(pairDist c4A c4B < 0.0001 ∨ pairDist c4A c4B > ballRadius * 2.5) := by
    push_neg
    exact ⟨h1, h2⟩
  have h3 : ¬(closingVelocity c4A c4B ≤ 0) := by rw [c4Closing]; norm_num
  have hpen : pairDist c4A c4B < ballRadius * 2 := by
    rw [c4Dist]; unfold ballRadius; norm_num
  have hfr : ¬(|(c4A.velocity.x - c4B.velocity.x) * (-((c4B.position.z - c4A.position.z) / pairDist c4A c4B)) +
      (c4A.velocity.z - c4B.velocity.z) * ((c4B.position.x - c4A.position.x) / pairDist c4A c4B) +
      c4A.angularVelocity.y * ballRadius| > 0.01) := by
    rw [ttv_rewrite]
    unfold totalTangentVel
    rw [c4Dist]
    unfold c4A c4B ballRadius
    dsimp only
    norm_num
  have hpos : (calculateBallCollision c4A c4B).1.position.x = 0 ∧
      (calculateBallCollision c4A c4B).1.position.z = 0 ∧
      (calculateBallCollision c4A c4B).2.position.x = 6003 / 114400 ∧
      (calculateBallCollision c4A c4B).2.position.z = 0 := by
    simp only [calculateBallCollision, dvn_rewrite]
    rw [if_neg hgate, if_neg h3]
    dsimp only
    rw [if_pos hpen, if_pos hpen, c4Dist]
    unfold c4A c4B ballRadius
    dsimp only
    rw [show Real.sqrt (0 * 0 + 0 * 0 : ℝ) = 0 from sqrt_eval (by norm_num) (by norm_num),
        show Real.sqrt (1 * 1 + 0 * 0 : ℝ) = 1 from sqrt_eval (by norm_num) (by norm_num)]
    refine ⟨by norm_num, by norm_num, by norm_num, by norm_num⟩
  refine ⟨hpen, by rw [c4Closing]; norm_num, ?_⟩
  unfold pairDist
  rw [hpos.1, hpos.2.1, hpos.2.2.1, hpos.2.2.2]
  rw [sqrt_eval (b := 6003 / 114400) (by norm_num) (by norm_num)]
  unfold ballRadius
  norm_num

/-! ## C5 — the fate of the vertical velocity component -/

lemma applyNapEffect_y (v : Vec3) (dt : ℝ) : (applyNapEffect v dt).y = v.y := by
  unfold applyNapEffect
  dsimp only
  split_ifs <;> rfl

lemma swerveUpdate_y (v : Vec3) (wy dt : ℝ) : (swerveUpdate v wy dt).y = v.y := by
  unfold swerveUpdate
  dsimp only
  split_ifs <;> rfl

lemma slidingVelocityUpdate_y (s : BallState) (dt : ℝ) :
    (slidingVelocityUpdate s dt).y = s.velocity.y := rfl

lemma rollingVelocityUpdate_y (s : BallState) (dt : ℝ) :
    (rollingVelocityUpdate s dt).y = s.velocity.y := by
  unfold rollingVelocityUpdate
  dsimp only
  split_ifs <;> rfl

/-- **C5 (amended).** The vertical velocity component `velocity.y` is
carried unchanged by `calculateBallCollision`, `calculateCushionRebound`,
`applyShot`, and by `updateBallPhysics` whenever the stop condition does not
fire; but when both speed and angular speed are below their stop thresholds,
`updateBallPhysics` zeroes the whole velocity vector, including `vy`. -/
theorem velocity_y_preservation :
    (∀ a b : BallState, (calculateBallCollision a b).1.velocity.y = a.velocity.y ∧
        (calculateBallCollision a b).2.velocity.y = b.velocity.y)
    ∧ (∀ (ball : BallState) (c : Cushion) (impactSpeed : ℝ),
        (calculateCushionRebound ball c impactSpeed).velocity.y = ball.velocity.y)
    ∧ (∀ (ball : BallState) (power angle spinX spinY maxSpeed : ℝ),
        (applyShot ball power angle spinX spinY maxSpeed).velocity.y = ball.velocity.y)
    ∧ (∀ (s : BallState) (dt : ℝ),
        ¬(speed s < velocity_stop ∧ angularSpeed s < angular_stop) →
        (updateBallPhysics s dt).velocity.y = s.velocity.y)
    ∧ (∀ (s : BallState) (dt : ℝ),
        speed s < velocity_stop → angularSpeed s < angular_stop →
        (updateBallPhysics s dt).velocity.y = 0) := by
  refine ⟨?_, ?_, ?_, ?_, ?_⟩
  · intro a b
    simp only [calculateBallCollision]
    split_ifs <;> exact ⟨rfl, rfl⟩
  · intro ball c impactSpeed
    rfl
  · intro ball power angle spinX spinY maxSpeed
    rfl
  · intro s dt h
    unfold updateBallPhysics
    rw [if_neg h]
    dsimp only
    rw [applyNapEffect_y, swerveUpdate_y]
    split_ifs
    · exact slidingVelocityUpdate_y s dt
    · exact rollingVelocityUpdate_y s dt
  · intro s dt h1 h2
    unfold updateBallPhysics
    rw [if_pos ⟨h1, h2⟩]

/-- A ball carrying only vertical velocity. -/
def c5s : BallState := ⟨⟨0, 0, 0⟩, ⟨0, 5, 0⟩, ⟨0, 0, 0⟩, Phase.stationary, 0⟩

lemma c5_speed : speed c5s = 0 := by
  unfold speed c5s
  dsimp only
  exact sqrt_eval (by norm_num) (by norm_num)

lemma c5_angularSpeed : angularSpeed c5s = 0 := by
  unfold angularSpeed c5s
  dsimp only
  exact sqrt_eval (by norm_num) (by norm_num)

/-- Counterexample to C5 as stated: a ball whose planar speed and angular
speed are below the stop thresholds but which carries `vy = 5`; one
integrator call zeroes `vy`. -/
theorem update_zeroes_vy : (updateBallPhysics c5s 0.01).velocity.y ≠ c5s.velocity.y := by
  unfold updateBallPhysics
  rw [if_pos ⟨by rw [c5_speed]; unfold velocity_stop; norm_num,
              by rw [c5_angularSpeed]; unfold angular_stop; norm_num⟩]
  unfold c5s
  norm_num

/-- Witness for C5: a moving ball (the head-on striker) keeps its `vy`
through a cushion rebound and an integrator step. -/
theorem velocity_y_preservation_witness :
    (calculateCushionRebound headA Cushion.left 1).velocity.y = headA.velocity.y ∧
    ¬(speed headA < velocity_stop ∧ angularSpeed headA < angular_stop) ∧
    (updateBallPhysics headA 0.01).velocity.y = headA.velocity.y := by
  have hsp : speed headA = 1 := by
    unfold speed headA
    dsimp only
    exact sqrt_eval (by norm_num) (by norm_num)
  have hns : ¬(speed headA < velocity_stop ∧ angularSpeed headA < angular_stop) := by
    rintro ⟨hlt, -⟩
    rw [hsp] at hlt
    unfold velocity_stop at hlt
    norm_num at hlt
  exact ⟨velocity_y_preservation.2.1 headA Cushion.left 1, hns,
    velocity_y_preservation.2.2.2.1 headA 0.01 hns⟩

/-! ## Evaluation helpers for an active collision -/

/-- In a frictionless impulse exchange (total tangential contact velocity at
most `0.01`) the new velocities are the pure normal exchange with
`(1+e)/2 = 0.99`. -/
lemma collision_velocity_eval (a b : BallState)
    (h1 : 0.0001 ≤ pairDist a b) (h2 : pairDist a b ≤ ballRadius * 2.5)
    (h3 : 0 < closingVelocity a b) (hfr : |totalTangentVel a b| ≤ 0.01) :
    (calculateBallCollision a b).1.velocity.x
        = a.velocity.x - 0.99 * closingVelocity a b * ((b.position.x - a.position.x) / pairDist a b)
    ∧ (calculateBallCollision a b).1.velocity.z
        = a.velocity.z - 0.99 * closingVelocity a b * ((b.position.z - a.position.z) / pairDist a b)
    ∧ (calculateBallCollision a b).2.velocity.x
        = b.velocity.x + 0.99 * closingVelocity a b * ((b.position.x - a.position.x) / pairDist a b)
    ∧ (calculateBallCollision a b).2.velocity.z
        = b.velocity.z + 0.99 * closingVelocity a b * ((b.position.z - a.position.z) / pairDist a b) := by
  have hgate : ¬(pairDist a b < 0.0001 ∨ pairDist a b > ballRadius * 2.5) := by
    push_neg
    exact ⟨h1, h2⟩
  simp only [calculateBallCollision, dvn_rewrite, ttv_rewrite]
  rw [if_neg hgate, if_neg (not_le.mpr h3), if_neg (not_lt.mpr hfr)]
  dsimp only
  refine ⟨?_, ?_, ?_, ?_⟩ <;>
    (unfold ballMass restitution_ball_ball; ring)

/-- In a frictionless impulse exchange the striking ball's spin is damped by
the fixed factors and the struck ball's side spin is unchanged. -/
lemma collision_spin_eval (a b : BallState)
    (h1 : 0.0001 ≤ pairDist a b) (h2 : pairDist a b ≤ ballRadius * 2.5)
    (h3 : 0 < closingVelocity a b) (hfr : |totalTangentVel a b| ≤ 0.01) :
    (calculateBallCollision a b).1.angularVelocity.x = a.angularVelocity.x * 0.95
    ∧ (calculateBallCollision a b).1.angularVelocity.y = a.angularVelocity.y * 0.90
    ∧ (calculateBallCollision a b).1.angularVelocity.z = a.angularVelocity.z * 0.95
    ∧ (calculateBallCollision a b).2.angularVelocity.y = b.angularVelocity.y := by
  have hgate : ¬(pairDist a b < 0.0001 ∨ pairDist a b > ballRadius * 2.5) := by
    push_neg
    exact ⟨h1, h2⟩
  simp only [calculateBallCollision, dvn_rewrite, ttv_rewrite]
  rw [if_neg hgate, if_neg (not_le.mpr h3), if_neg (not_lt.mpr hfr)]
  dsimp only
  refine ⟨rfl, by ring, by ring, by ring⟩

/-- Phases, phase times and the struck ball's rolling-plane spin after an
impulse exchange, conditional on the struck ball's new speed. -/
lemma collision_phase_spin_aux (a b : BallState)
    (h1 : 0.0001 ≤ pairDist a b) (h2 : pairDist a b ≤ ballRadius * 2.5)
    (h3 : 0 < closingVelocity a b) :
    (calculateBallCollision a b).1.phase = Phase.sliding
    ∧ (calculateBallCollision a b).1.phaseTime = 0
    ∧ (calculateBallCollision a b).2.phaseTime = 0
    ∧ (0.01 < speed (calculateBallCollision a b).2 →
        (calculateBallCollision a b).2.phase = Phase.sliding
        ∧ (calculateBallCollision a b).2.angularVelocity.x
            = -(calculateBallCollision a b).2.velocity.z / ballRadius * 0.92
        ∧ (calculateBallCollision a b).2.angularVelocity.z
            = (calculateBallCollision a b).2.velocity.x / ballRadius * 0.92)
    ∧ (¬ 0.01 < speed (calculateBallCollision a b).2 →
        (calculateBallCollision a b).2.phase = b.phase
        ∧ (calculateBallCollision a b).2.angularVelocity.x = b.angularVelocity.x
        ∧ (calculateBallCollision a b).2.angularVelocity.z = b.angularVelocity.z) := by
  have hgate : ¬(pairDist a b < 0.0001 ∨ pairDist a b > ballRadius * 2.5) := by
    push_neg
    exact ⟨h1, h2⟩
  simp only [calculateBallCollision, dvn_rewrite]
  rw [if_neg hgate, if_neg (not_le.mpr h3)]
  unfold speed
  dsimp only
  refine ⟨rfl, rfl, rfl, ?_, ?_⟩
  · intro h
    rw [if_pos h, if_pos h, if_pos h]
    exact ⟨rfl, rfl, rfl⟩
  · intro h
    rw [if_neg h, if_neg h, if_neg h]
    exact ⟨rfl, rfl, rfl⟩

/-! ## C6 — phases and struck-ball spin after an impulse exchange -/

/-- **C6 (amended).** After an impulse exchange, ball A always leaves with
`phase = Sliding` and `phaseTime = 0`, and ball B's `phaseTime` is always
reset to `0`; but ball B is set to `Sliding` with rolling-plane spin equal to
92% of the natural-roll value of its new velocity only when its
post-collision planar speed exceeds `0.01` — otherwise ball B's phase and
rolling-plane spin keep their input values. -/
theorem collision_phase_spin (a b : BallState)
    (h1 : 0.0001 ≤ pairDist a b) (h2 : pairDist a b ≤ ballRadius * 2.5)
    (h3 : 0 < closingVelocity a b) :
    (calculateBallCollision a b).1.phase = Phase.sliding
    ∧ (calculateBallCollision a b).1.phaseTime = 0
    ∧ (calculateBallCollision a b).2.phaseTime = 0
    ∧ (0.01 < speed (calculateBallCollision a b).2 →
        (calculateBallCollision a b).2.phase = Phase.sliding
        ∧ (calculateBallCollision a b).2.angularVelocity.x
            = -(calculateBallCollision a b).2.velocity.z / ballRadius * 0.92
        ∧ (calculateBallCollision a b).2.angularVelocity.z
            = (calculateBallCollision a b).2.velocity.x / ballRadius * 0.92)
    ∧ (¬ 0.01 < speed (calculateBallCollision a b).2 →
        (calculateBallCollision a b).2.phase = b.phase
        ∧ (calculateBallCollision a b).2.angularVelocity.x = b.angularVelocity.x
        ∧ (calculateBallCollision a b).2.angularVelocity.z = b.angularVelocity.z) :=
  collision_phase_spin_aux a b h1 h2 h3

/-- Slow impulse pair: A nudges resting B at 5 mm/s from distance `2R`. -/
def c6A : BallState := ⟨⟨0, 0, 0⟩, ⟨0.005, 0, 0⟩, ⟨0, 0, 0⟩, Phase.sliding, 0⟩

def c6B : BallState := ⟨⟨0.0525, 0, 0⟩, ⟨0, 0, 0⟩, ⟨0, 0, 0⟩, Phase.stationary, 0⟩

lemma c6Dist : pairDist c6A c6B = 0.0525 := by
  unfold pairDist c6A c6B
  dsimp only
  exact sqrt_eval (by norm_num) (by norm_num)

lemma c6Closing : closingVelocity c6A c6B = 0.005 := by
  unfold closingVelocity
  rw [c6Dist]
  unfold c6A c6B
  dsimp only
  norm_num

lemma c6Ttv : |totalTangentVel c6A c6B| ≤ 0.01 := by
  unfold totalTangentVel
  rw [c6Dist]
  unfold c6A c6B ballRadius
  dsimp only
  norm_num

/-- Counterexample to C6 as stated: an impulse exchange (closing velocity
`> 0`) after which the struck ball's phase is **not** `Sliding` (its
post-collision speed `0.00495` is below the `0.01` guard). -/
theorem collision_small_impulse_keeps_phase :
    0.0001 ≤ pairDist c6A c6B ∧ pairDist c6A c6B ≤ ballRadius * 2.5 ∧
    0 < closingVelocity c6A c6B ∧
    (calculateBallCollision c6A c6B).2.phase ≠ Phase.sliding := by
  have h1 : 0.0001 ≤ pairDist c6A c6B := by rw [c6Dist]; norm_num
  have h2 : pairDist c6A c6B ≤ ballRadius * 2.5 := by
    rw [c6Dist]; unfold ballRadius; norm_num
  have h3 : 0 < closingVelocity c6A c6B := by rw [c6Closing]; norm_num
  obtain ⟨-, -, e3, e4⟩ := collision_velocity_eval c6A c6B h1 h2 h3 c6Ttv
  have hvx : (calculateBallCollision c6A c6B).2.velocity.x = 0.00495 := by
    rw [e3, c6Closing, c6Dist]
    unfold c6A c6B
    dsimp only
    norm_num
  have hvz : (calculateBallCollision c6A c6B).2.velocity.z = 0 := by
    rw [e4, c6Closing, c6Dist]
    unfold c6A c6B
    dsimp only
    norm_num
  have hsp : speed (calculateBallCollision c6A c6B).2 = 0.00495 := by
    unfold speed
    rw [hvx, hvz]
    exact sqrt_eval (by norm_num) (by norm_num)
  have hno : ¬ 0.01 < speed (calculateBallCollision c6A c6B).2 := by
    rw [hsp]; norm_num
  obtain ⟨-, -, -, -, hneg⟩ := collision_phase_spin_aux c6A c6B h1 h2 h3
  refine ⟨h1, h2, h3, ?_⟩
  rw [(hneg hno).1]
  unfold c6B
  dsimp only
  exact fun h => Phase.noConfusion h

/-- Witness for C6: in the head-on collision the struck ball leaves at
0.99 m/s, above the `0.01` guard, so both balls leave `Sliding`. -/
theorem collision_phase_spin_witness :
    0 < closingVelocity headA headB ∧
    0.01 < speed (calculateBallCollision headA headB).2 ∧
    (calculateBallCollision headA headB).1.phase = Phase.sliding ∧
    (calculateBallCollision headA headB).2.phase = Phase.sliding := by
  have h1 : 0.0001 ≤ pairDist headA headB := by rw [headDist]; norm_num
  have h2 : pairDist headA headB ≤ ballRadius * 2.5 := by
    rw [headDist]; unfold ballRadius; norm_num
  have h3 : 0 < closingVelocity headA headB := by rw [headClosing]; norm_num
  have httv : |totalTangentVel headA headB| ≤ 0.01 := by
    unfold totalTangentVel
    rw [headDist]
    unfold headA headB ballRadius
    dsimp only
    norm_num
  obtain ⟨-, -, e3, e4⟩ := collision_velocity_eval headA headB h1 h2 h3 httv
  have hvx : (calculateBallCollision headA headB).2.velocity.x = 0.99 := by
    rw [e3, headClosing, headDist]
    unfold headA headB
    dsimp only
    norm_num
  have hvz : (calculateBallCollision headA headB).2.velocity.z = 0 := by
    rw [e4, headClosing, headDist]
    unfold headA headB
    dsimp only
    norm_num
  have hsp : speed (calculateBallCollision headA headB).2 = 0.99 := by
    unfold speed
    rw [hvx, hvz]
    exact sqrt_eval (by norm_num) (by norm_num)
  have hyes : 0.01 < speed (calculateBallCollision headA headB).2 := by
    rw [hsp]; norm_num
  obtain ⟨pA, -, -, hpos, -⟩ := collision_phase_spin headA headB h1 h2 h3
  exact ⟨h3, hyes, pA, (hpos hyes).1⟩

/-! ## C2 — energy bookkeeping of collisions and rebounds -/

lemma kineticEnergy_coords (s : BallState) :
    kineticEnergy s = 0.5 * ballMass * (s.velocity.x * s.velocity.x + s.velocity.z * s.velocity.z) := by
  unfold kineticEnergy speed
  rw [mul_assoc, Real.mul_self_sqrt (add_nonneg (mul_self_nonneg _) (mul_self_nonneg _))]

lemma rotationalEnergy_coords (s : BallState) :
    rotationalEnergy s = 0.5 * momentOfInertia *
      (s.angularVelocity.x * s.angularVelocity.x + s.angularVelocity.y * s.angularVelocity.y +
        s.angularVelocity.z * s.angularVelocity.z) := by
  unfold rotationalEnergy angularSpeed
  rw [mul_assoc, Real.mul_self_sqrt
    (add_nonneg (add_nonneg (mul_self_nonneg _) (mul_self_nonneg _)) (mul_self_nonneg _))]

lemma atan2_nonneg {y x : ℝ} (hy : 0 ≤ y) (hx : 0 ≤ x) : 0 ≤ atan2 y x := by
  unfold atan2
  split_ifs with h1 h2 h3 h4
  · rw [← Real.arctan_zero]
    exact Real.arctan_strictMono.monotone (div_nonneg hy h1.le)
  all_goals first
    | linarith
    | linarith [Real.pi_pos]

lemma cushionAngleDeg_nonneg (ball : BallState) (c : Cushion) :
    0 ≤ cushionAngleDeg ball c := by
  unfold cushionAngleDeg
  dsimp only
  exact div_nonneg
    (mul_nonneg (atan2_nonneg (abs_nonneg _) (abs_nonneg _)) (by norm_num)) Real.pi_pos.le

lemma effectiveCor_bounds (a s : ℝ) :
    0.65 ≤ effectiveCor a s ∧ effectiveCor a s ≤ 0.96 := by
  unfold effectiveCor
  exact ⟨le_max_left _ _, max_le (by norm_num) (min_le_left _ _)⟩

lemma tangentRetention_bounds {a : ℝ} (ha : 0 ≤ a) :
    0 ≤ tangentRetention a ∧ tangentRetention a ≤ 0.97 := by
  unfold tangentRetention
  split_ifs with h
  · constructor <;> nlinarith
  · norm_num

set_option maxHeartbeats 2000000 in
/-- **C2 (amended).** For ball-ball collisions in which the friction
(throw) impulse vanishes (total tangential contact velocity at most `0.01`),
the planar translational kinetic energy of the pair does not increase; and a
cushion rebound of a spin-free ball does not increase its kinetic plus
rotational energy.  (With spin the total energy **can** increase — see the
counterexample: the struck ball's rolling spin is freshly initialised to 92%
of natural roll, which injects rotational energy.) -/
theorem collision_rebound_energy :
    (∀ a b : BallState, 0.0001 ≤ pairDist a b → pairDist a b ≤ ballRadius * 2.5 →
      0 < closingVelocity a b → |totalTangentVel a b| ≤ 0.01 →
      kineticEnergy (calculateBallCollision a b).1 + kineticEnergy (calculateBallCollision a b).2
        ≤ kineticEnergy a + kineticEnergy b)
    ∧ (∀ (ball : BallState) (c : Cushion) (impactSpeed : ℝ),
        ball.angularVelocity.x = 0 → ball.angularVelocity.y = 0 → ball.angularVelocity.z = 0 →
        kineticEnergy (calculateCushionRebound ball c impactSpeed)
            + rotationalEnergy (calculateCushionRebound ball c impactSpeed)
          ≤ kineticEnergy ball + rotationalEnergy ball) := by
  constructor
  · intro a b h1 h2 h3 hfr
    obtain ⟨e1, e2, e3, e4⟩ := collision_velocity_eval a b h1 h2 h3 hfr
    simp only [kineticEnergy_coords]
    rw [e1, e2, e3, e4]
    have hdd : pairDist a b * pairDist a b
        = (b.position.x - a.position.x) * (b.position.x - a.position.x) +
          (b.position.z - a.position.z) * (b.position.z - a.position.z) := by
      unfold pairDist
      exact Real.mul_self_sqrt (add_nonneg (mul_self_nonneg _) (mul_self_nonneg _))
    have hdpos : (0 : ℝ) < pairDist a b := lt_of_lt_of_le (by norm_num) h1
    clear hfr h3
    set q := closingVelocity a b with hq
    set nx := (b.position.x - a.position.x) / pairDist a b with hnx
    set nz := (b.position.z - a.position.z) / pairDist a b with hnz
    set ax := a.velocity.x
    set az := a.velocity.z
    set bx := b.velocity.x
    set bz := b.velocity.z
    have hn : nx * nx + nz * nz = 1 := by
      rw [hnx, hnz]
      field_simp
      linarith [hdd]
    have hcv : q = (ax - bx) * nx + (az - bz) * nz := by
      rw [hq, hnx, hnz]
      unfold closingVelocity
      ring
    have expand : 0.5 * ballMass * ((ax - 0.99 * q * nx) * (ax - 0.99 * q * nx) +
          (az - 0.99 * q * nz) * (az - 0.99 * q * nz)) +
        0.5 * ballMass * ((bx + 0.99 * q * nx) * (bx + 0.99 * q * nx) +
          (bz + 0.99 * q * nz) * (bz + 0.99 * q * nz))
        = 0.5 * ballMass * (ax * ax + az * az) + 0.5 * ballMass * (bx * bx + bz * bz)
          - ballMass * 0.99 * q * ((ax - bx) * nx + (az - bz) * nz)
          + ballMass * 0.9801 * (q * q) * (nx * nx + nz * nz) := by
      ring
    rw [expand, hn, ← hcv]
    have hqq : 0 ≤ q * q := mul_self_nonneg q
    unfold ballMass
    clear e1 e2 e3 e4 expand hdd hcv hn h1 h2 hdpos hq hnx hnz
    linarith
  · intro ball c impactSpeed hx hy hz
    obtain ⟨hA1, hA2⟩ := effectiveCor_bounds (cushionAngleDeg ball c) impactSpeed
    obtain ⟨hT1, hT2⟩ := tangentRetention_bounds (cushionAngleDeg_nonneg ball c)
    have hAA : effectiveCor (cushionAngleDeg ball c) impactSpeed *
        effectiveCor (cushionAngleDeg ball c) impactSpeed ≤ 1 := by nlinarith
    have hTT : tangentRetention (cushionAngleDeg ball c) *
        tangentRetention (cushionAngleDeg ball c) ≤ 1 := by nlinarith
    have b1 : effectiveCor (cushionAngleDeg ball c) impactSpeed *
        effectiveCor (cushionAngleDeg ball c) impactSpeed *
        (ball.velocity.x * ball.velocity.x) ≤ ball.velocity.x * ball.velocity.x := by
      nlinarith [hAA, mul_self_nonneg ball.velocity.x]
    have b2 : effectiveCor (cushionAngleDeg ball c) impactSpeed *
        effectiveCor (cushionAngleDeg ball c) impactSpeed *
        (ball.velocity.z * ball.velocity.z) ≤ ball.velocity.z * ball.velocity.z := by
      nlinarith [hAA, mul_self_nonneg ball.velocity.z]
    have b3 : tangentRetention (cushionAngleDeg ball c) *
        tangentRetention (cushionAngleDeg ball c) *
        (ball.velocity.x * ball.velocity.x) ≤ ball.velocity.x * ball.velocity.x := by
      nlinarith [hTT, mul_self_nonneg ball.velocity.x]
    have b4 : tangentRetention (cushionAngleDeg ball c) *
        tangentRetention (cushionAngleDeg ball c) *
        (ball.velocity.z * ball.velocity.z) ≤ ball.velocity.z * ball.velocity.z := by
      nlinarith [hTT, mul_self_nonneg ball.velocity.z]
    cases c
    all_goals
      simp only [kineticEnergy_coords, rotationalEnergy_coords, calculateCushionRebound,
        cushionNormalX, cushionNormalZ]
      rw [hx, hy, hz]
      unfold ballMass momentOfInertia ballRadius
      nlinarith [b1, b2, b3, b4]

lemma headTtv : |totalTangentVel headA headB| ≤ 0.01 := by
  unfold totalTangentVel
  rw [headDist]
  unfold headA headB ballRadius
  dsimp only
  norm_num

/-- Counterexample to C2 as stated: in the spin-free head-on collision the
total kinetic-plus-rotational energy **increases**, because the struck
ball's rolling-plane spin is freshly initialised to 92% of the natural roll
of its 0.99 m/s exit velocity (&approx;0.0236 J of rotational energy created;
0.071 J in, &approx;0.0932 J out). -/
theorem collision_energy_counterexample :
    kineticEnergy headA + rotationalEnergy headA + kineticEnergy headB + rotationalEnergy headB
      < kineticEnergy (calculateBallCollision headA headB).1
        + rotationalEnergy (calculateBallCollision headA headB).1
        + kineticEnergy (calculateBallCollision headA headB).2
        + rotationalEnergy (calculateBallCollision headA headB).2 := by
  have h1 : 0.0001 ≤ pairDist headA headB := by rw [headDist]; norm_num
  have h2 : pairDist headA headB ≤ ballRadius * 2.5 := by
    rw [headDist]; unfold ballRadius; norm_num
  have h3 : 0 < closingVelocity headA headB := by rw [headClosing]; norm_num
  obtain ⟨e1, e2, e3, e4⟩ := collision_velocity_eval headA headB h1 h2 h3 headTtv
  obtain ⟨s1, s2, s3, s4⟩ := collision_spin_eval headA headB h1 h2 h3 headTtv
  obtain ⟨-, -, -, hpos, -⟩ := collision_phase_spin_aux headA headB h1 h2 h3
  have hv1x : (calculateBallCollision headA headB).1.velocity.x = 0.01 := by
    rw [e1, headClosing, headDist]
    unfold headA headB
    dsimp only
    norm_num
  have hv1z : (calculateBallCollision headA headB).1.velocity.z = 0 := by
    rw [e2, headClosing, headDist]
    unfold headA headB
    dsimp only
    norm_num
  have hv2x : (calculateBallCollision headA headB).2.velocity.x = 0.99 := by
    rw [e3, headClosing, headDist]
    unfold headA headB
    dsimp only
    norm_num
  have hv2z : (calculateBallCollision headA headB).2.velocity.z = 0 := by
    rw [e4, headClosing, headDist]
    unfold headA headB
    dsimp only
    norm_num
  have hyes : 0.01 < speed (calculateBallCollision headA headB).2 := by
    have : speed (calculateBallCollision headA headB).2 = 0.99 := by
      unfold speed
      rw [hv2x, hv2z]
      exact sqrt_eval (by norm_num) (by norm_num)
    rw [this]; norm_num
  have hw1x : (calculateBallCollision headA headB).1.angularVelocity.x = 0 := by
    rw [s1]
    unfold headA
    dsimp only
    norm_num
  have hw1y : (calculateBallCollision headA headB).1.angularVelocity.y = 0 := by
    rw [s2]
    unfold headA
    dsimp only
    norm_num
  have hw1z : (calculateBallCollision headA headB).1.angularVelocity.z = 0 := by
    rw [s3]
    unfold headA
    dsimp only
    norm_num
  have hw2y : (calculateBallCollision headA headB).2.angularVelocity.y = 0 := by
    rw [s4]
    unfold headB
    dsimp only
  have hw2x : (calculateBallCollision headA headB).2.angularVelocity.x = 0 := by
    rw [(hpos hyes).2.1, hv2z]
    norm_num
  have hw2z : (calculateBallCollision headA headB).2.angularVelocity.z
      = 0.99 / 0.02625 * 0.92 := by
    rw [(hpos hyes).2.2, hv2x]
    unfold ballRadius
    rfl
  simp only [kineticEnergy_coords, rotationalEnergy_coords]
  rw [hv1x, hv1z, hv2x, hv2z, hw1x, hw1y, hw1z, hw2x, hw2y, hw2z]
  unfold headA headB momentOfInertia ballMass ballRadius
  dsimp only
  norm_num

/-- Witness for C2: the head-on pair satisfies the frictionless-exchange
hypotheses, and its planar translational kinetic energy does not increase. -/
theorem collision_rebound_energy_witness :
    0 < closingVelocity headA headB ∧ |totalTangentVel headA headB| ≤ 0.01 ∧
    kineticEnergy (calculateBallCollision headA headB).1
        + kineticEnergy (calculateBallCollision headA headB).2
      ≤ kineticEnergy headA + kineticEnergy headB := by
  have h1 : 0.0001 ≤ pairDist headA headB := by rw [headDist]; norm_num
  have h2 : pairDist headA headB ≤ ballRadius * 2.5 := by
    rw [headDist]; unfold ballRadius; norm_num
  have h3 : 0 < closingVelocity headA headB := by rw [headClosing]; norm_num
  exact ⟨h3, headTtv, collision_rebound_energy.1 headA headB h1 h2 h3 headTtv⟩

/-! ## C7 — pure rolling decay -/

lemma swerveUpdate_zero (v : Vec3) (dt : ℝ) : swerveUpdate v 0 dt = v := by
  unfold swerveUpdate
  dsimp only
  rw [if_neg]
  rintro ⟨h, -⟩
  rw [abs_zero] at h
  norm_num at h

/-- **C7 (amended).** A ball in pure rolling (`ω = v/R`, zero slip) with no
side spin, speed at least `velocity_stop`, and **not moving against the
cloth nap** (`vz ≤ 0.3·speed`, so the nap drag of `applyNapEffect` cannot
fire), advanced one step with `dt = 1/120`: its speed decreases by exactly
`μ_roll·g·dt` (clamped at zero), the velocity is rescaled uniformly (the
direction is preserved), the angular velocity again satisfies `ω = v/R` with
zero side spin, and the phase is `Rolling`.  (Moving against the nap at
0.05-0.5 m/s the decrement is strictly larger — see the counterexample.) -/
theorem pure_rolling_decay_step (s : BallState)
    (hx : s.angularVelocity.x = -s.velocity.z / ballRadius)
    (hz : s.angularVelocity.z = s.velocity.x / ballRadius)
    (hy : s.angularVelocity.y = 0)
    (hv : velocity_stop ≤ speed s)
    (hnap : s.velocity.z ≤ 0.3 * speed s) :
    speed (updateBallPhysics s (1/120))
        = max 0 (speed s - table_friction_roll * gravity * (1/120))
    ∧ (updateBallPhysics s (1/120)).velocity.x
        = s.velocity.x * (max 0 (speed s - table_friction_roll * gravity * (1/120)) / speed s)
    ∧ (updateBallPhysics s (1/120)).velocity.z
        = s.velocity.z * (max 0 (speed s - table_friction_roll * gravity * (1/120)) / speed s)
    ∧ (updateBallPhysics s (1/120)).angularVelocity.x
        = -(updateBallPhysics s (1/120)).velocity.z / ballRadius
    ∧ (updateBallPhysics s (1/120)).angularVelocity.z
        = (updateBallPhysics s (1/120)).velocity.x / ballRadius
    ∧ (updateBallPhysics s (1/120)).angularVelocity.y = 0
    ∧ (updateBallPhysics s (1/120)).phase = Phase.rolling := by
  have hR : (ballRadius : ℝ) ≠ 0 := by unfold ballRadius; norm_num
  have hsppos : 0 < speed s :=
    lt_of_lt_of_le (by unfold velocity_stop; norm_num) hv
  set N := max 0 (speed s - table_friction_roll * gravity * (1/120)) with hN
  have hN0 : 0 ≤ N := le_max_left _ _
  have hk0 : 0 ≤ N / speed s := div_nonneg hN0 hsppos.le
  have hsxz : (slipVelocity s).x = 0 ∧ (slipVelocity s).z = 0 := by
    unfold slipVelocity surfaceVelocity
    dsimp only
    rw [hx, hz]
    constructor <;> field_simp
  have hslip : slipSpeed s = 0 := by
    unfold slipSpeed
    rw [hsxz.1, hsxz.2, show (0 : ℝ) * 0 + 0 * 0 = 0 by norm_num, Real.sqrt_zero]
  have hnotslip : ¬ slipSpeed s > slip_threshold := by
    rw [hslip]
    unfold slip_threshold
    norm_num
  have hstop : ¬ (speed s < velocity_stop ∧ angularSpeed s < angular_stop) := by
    rintro ⟨hl, -⟩
    exact absurd hv (not_le.mpr hl)
  have hgt1 : speed s > 0.001 :=
    lt_of_lt_of_le (by unfold velocity_stop; norm_num) hv
  have hgt2 : speed s > 0.0001 :=
    lt_of_lt_of_le (by unfold velocity_stop; norm_num) hv
  have hv1 : rollingVelocityUpdate s (1/120)
      = ⟨s.velocity.x * (N / speed s), s.velocity.y, s.velocity.z * (N / speed s)⟩ := by
    unfold rollingVelocityUpdate
    rw [if_pos hgt1]
    dsimp only
    rw [if_pos hgt2, ← hN]
  have hsp1 : Real.sqrt ((s.velocity.x * (N / speed s)) * (s.velocity.x * (N / speed s)) +
      (s.velocity.z * (N / speed s)) * (s.velocity.z * (N / speed s))) = N := by
    rw [show (s.velocity.x * (N / speed s)) * (s.velocity.x * (N / speed s)) +
        (s.velocity.z * (N / speed s)) * (s.velocity.z * (N / speed s))
        = (s.velocity.x * s.velocity.x + s.velocity.z * s.velocity.z) *
          ((N / speed s) * (N / speed s)) from by ring]
    rw [Real.sqrt_mul (add_nonneg (mul_self_nonneg _) (mul_self_nonneg _)),
      Real.sqrt_mul_self hk0]
    rw [show Real.sqrt (s.velocity.x * s.velocity.x + s.velocity.z * s.velocity.z)
        = speed s from rfl]
    rw [mul_comm, div_mul_cancel₀ _ (ne_of_gt hsppos)]
  have hspN : speed s * (N / speed s) = N := by
    rw [mul_comm, div_mul_cancel₀ _ (ne_of_gt hsppos)]
  have hnapv : applyNapEffect
      ⟨s.velocity.x * (N / speed s), s.velocity.y, s.velocity.z * (N / speed s)⟩ (1/120)
      = ⟨s.velocity.x * (N / speed s), s.velocity.y, s.velocity.z * (N / speed s)⟩ := by
    unfold applyNapEffect napDirX napDirZ
    dsimp only
    rw [hsp1]
    by_cases hlow : N < 0.05 ∨ N > 0.5
    · rw [if_pos hlow]
    · rw [if_neg hlow]
      push_neg at hlow
      have hNpos : (0 : ℝ) < N := lt_of_lt_of_le (by norm_num) hlow.1
      have hzk : s.velocity.z * (N / speed s) ≤ 0.3 * N := by
        calc s.velocity.z * (N / speed s)
            ≤ 0.3 * speed s * (N / speed s) := by
              exact mul_le_mul_of_nonneg_right hnap hk0
          _ = 0.3 * (speed s * (N / speed s)) := by ring
          _ = 0.3 * N := by rw [hspN]
      have hdivle : s.velocity.z * (N / speed s) / N ≤ 0.3 :=
        (div_le_iff₀ hNpos).mpr (by linarith)
      rw [if_neg]
      intro hcon
      have : s.velocity.x * (N / speed s) / N * 0 +
          s.velocity.z * (N / speed s) / N * (-1)
          = -(s.velocity.z * (N / speed s) / N) := by ring
      rw [this] at hcon
      linarith
  have hw1 : rollingOmegaUpdate s
      ⟨s.velocity.x * (N / speed s), s.velocity.y, s.velocity.z * (N / speed s)⟩
      = ⟨-(s.velocity.z * (N / speed s)) / ballRadius, s.angularVelocity.y,
          s.velocity.x * (N / speed s) / ballRadius⟩ := by
    unfold rollingOmegaUpdate
    rw [if_pos hgt1]
  have hupd : updateBallPhysics s (1/120)
      = ⟨⟨s.position.x + s.velocity.x * (N / speed s) * (1/120), s.position.y,
          s.position.z + s.velocity.z * (N / speed s) * (1/120)⟩,
         ⟨s.velocity.x * (N / speed s), s.velocity.y, s.velocity.z * (N / speed s)⟩,
         ⟨-(s.velocity.z * (N / speed s)) / ballRadius, 0,
          s.velocity.x * (N / speed s) / ballRadius⟩,
         Phase.rolling, s.phaseTime + 1/120⟩ := by
    unfold updateBallPhysics
    rw [if_neg hstop]
    dsimp only
    rw [if_neg hnotslip, if_neg hnotslip, if_neg hnotslip, hv1, hw1]
    dsimp only
    rw [hy, zero_mul, swerveUpdate_zero, hnapv]
  rw [hupd]
  refine ⟨?_, rfl, rfl, rfl, rfl, rfl, rfl⟩
  unfold speed
  dsimp only
  exact hsp1

/-- A purely rolling, side-spin-free ball moving *against the nap*
(toward `+z`, the nap direction being `(0, -1)`) at 0.3 m/s. -/
def c7n : BallState :=
  ⟨⟨0, 0, 0⟩, ⟨0, 0, 0.3⟩, ⟨-(0.3 / 0.02625), 0, 0⟩, Phase.rolling, 0⟩

lemma c7n_speed : speed c7n = 0.3 := by
  unfold speed c7n
  dsimp only
  exact sqrt_eval (by norm_num) (by norm_num)

/-- Counterexample to C7 as stated: for a ball in pure rolling with no side
spin but moving against the cloth nap in the 0.05-0.5 m/s window, one step
with `dt = 1/120` does **not** reduce the speed by exactly `μ_roll·g·dt`
(the nap drag subtracts an extra `nap_factor·g·dt`): the step yields speed
`0.29982015` instead of `0.2998365`. -/
theorem pure_rolling_decay_nap_counterexample :
    c7n.angularVelocity.x = -c7n.velocity.z / ballRadius ∧
    c7n.angularVelocity.z = c7n.velocity.x / ballRadius ∧
    c7n.angularVelocity.y = 0 ∧
    velocity_stop ≤ speed c7n ∧
    speed (updateBallPhysics c7n (1/120))
      ≠ max 0 (speed c7n - table_friction_roll * gravity * (1/120)) := by
  have hslipx : (slipVelocity c7n).x = 0 := by
    unfold slipVelocity surfaceVelocity c7n ballRadius
    dsimp only
    norm_num
  have hslipz : (slipVelocity c7n).z = 0 := by
    unfold slipVelocity surfaceVelocity c7n ballRadius
    dsimp only
    norm_num
  have hslip : slipSpeed c7n = 0 := by
    unfold slipSpeed
    rw [hslipx, hslipz, show (0 : ℝ) * 0 + 0 * 0 = 0 by norm_num, Real.sqrt_zero]
  have hnotslip : ¬ slipSpeed c7n > slip_threshold := by
    rw [hslip]
    unfold slip_threshold
    norm_num
  have hstop : ¬ (speed c7n < velocity_stop ∧ angularSpeed c7n < angular_stop) := by
    rintro ⟨hl, -⟩
    rw [c7n_speed] at hl
    unfold velocity_stop at hl
    norm_num at hl
  have hv1 : rollingVelocityUpdate c7n (1/120) = ⟨0, 0, 0.2998365⟩ := by
    unfold rollingVelocityUpdate
    rw [c7n_speed, if_pos (by norm_num)]
    dsimp only
    rw [if_pos (by norm_num)]
    unfold table_friction_roll gravity c7n
    dsimp only
    rw [show max 0 (0.3 - 0.002 * 9.81 * (1/120) : ℝ) = 0.2998365 from by
      rw [max_eq_right (by norm_num)]; norm_num]
    simp only [Vec3.mk.injEq]
    norm_num
  have hw1y : (rollingOmegaUpdate c7n ⟨0, 0, 0.2998365⟩).y = 0 := by
    unfold rollingOmegaUpdate
    split_ifs <;> rfl
  have hnapv : applyNapEffect ⟨0, 0, 0.2998365⟩ (1/120) = ⟨0, 0, 0.29982015⟩ := by
    unfold applyNapEffect napDirX napDirZ nap_drift_factor gravity
    dsimp only
    rw [show Real.sqrt ((0 : ℝ) * 0 + 0.2998365 * 0.2998365) = 0.2998365 from
      sqrt_eval (by norm_num) (by norm_num)]
    rw [if_neg (by norm_num), if_pos (by norm_num)]
    simp only [Vec3.mk.injEq]
    norm_num
  have hupd : (updateBallPhysics c7n (1/120)).velocity = ⟨0, 0, 0.29982015⟩ := by
    unfold updateBallPhysics
    rw [if_neg hstop]
    dsimp only
    rw [if_neg hnotslip, if_neg hnotslip, hv1, hw1y, zero_mul, swerveUpdate_zero, hnapv]
  refine ⟨by unfold c7n ballRadius; dsimp only; norm_num,
    by unfold c7n ballRadius; dsimp only; norm_num,
    by unfold c7n; dsimp only,
    by rw [c7n_speed]; unfold velocity_stop; norm_num, ?_⟩
  have hsp : speed (updateBallPhysics c7n (1/120)) = 0.29982015 := by
    unfold speed
    rw [hupd]
    exact sqrt_eval (by norm_num) (by norm_num)
  rw [hsp, c7n_speed]
  unfold table_friction_roll gravity
  rw [max_eq_right (by norm_num)]
  norm_num

/-- A purely rolling ball moving along `+x` (across the nap) at 0.2625 m/s. -/
def c7w : BallState :=
  ⟨⟨0, 0, 0⟩, ⟨0.2625, 0, 0⟩, ⟨0, 0, 10⟩, Phase.rolling, 0⟩

lemma c7w_speed : speed c7w = 0.2625 := by
  unfold speed c7w
  dsimp only
  exact sqrt_eval (by norm_num) (by norm_num)

/-- Witness for C7: the rolling ball at 0.2625 m/s loses exactly
`μ_roll·g/120` of speed in one step. -/
theorem pure_rolling_decay_step_witness :
    velocity_stop ≤ speed c7w ∧
    speed (updateBallPhysics c7w (1/120))
      = max 0 (speed c7w - table_friction_roll * gravity * (1/120)) := by
  have hx : c7w.angularVelocity.x = -c7w.velocity.z / ballRadius := by
    unfold c7w ballRadius
    dsimp only
    norm_num
  have hz : c7w.angularVelocity.z = c7w.velocity.x / ballRadius := by
    unfold c7w ballRadius
    dsimp only
    norm_num
  have hy : c7w.angularVelocity.y = 0 := by
    unfold c7w
    dsimp only
  have hv : velocity_stop ≤ speed c7w := by
    rw [c7w_speed]
    unfold velocity_stop
    norm_num
  have hnap : c7w.velocity.z ≤ 0.3 * speed c7w := by
    rw [c7w_speed]
    unfold c7w
    dsimp only
    norm_num
  exact ⟨hv, (pure_rolling_decay_step c7w hx hz hy hv hnap).1⟩

/-! ## C9 — trajectory prediction on a nearly stopped ball -/

lemma predictAux_succ (n : ℕ) (s : BallState) (dt : ℝ) :
    predictAux (n + 1) s dt =
      if speed (updateBallPhysics s dt) < velocity_stop
      then [⟨s.position.x, s.position.z, s.phase⟩]
      else (⟨s.position.x, s.position.z, s.phase⟩ : TrajPoint) ::
        predictAux n (updateBallPhysics s dt) dt := rfl

/-- **C9 (amended).** `predictTrajectory` on a ball whose planar speed is
below `velocity_stop` **and** whose angular speed is below `angular_stop`
(so the integrator's stop branch fires on the first step) returns a
trajectory of length at most 1, for any positive duration and `dt`.  (Speed
below `velocity_stop` alone is not enough — see the counterexample, where
residual spin re-accelerates the ball.) -/
theorem predictTrajectory_short (s : BallState) (duration dt : ℝ)
    (h1 : speed s < velocity_stop) (h2 : angularSpeed s < angular_stop)
    (hdur : 0 < duration) (hdt : 0 < dt) :
    (predictTrajectory s duration dt).length ≤ 1 := by
  have hstop : speed (updateBallPhysics s dt) < velocity_stop := by
    unfold updateBallPhysics
    rw [if_pos ⟨h1, h2⟩]
    unfold speed
    dsimp only
    rw [show (0 : ℝ) * 0 + 0 * 0 = 0 by norm_num, Real.sqrt_zero]
    unfold velocity_stop
    norm_num
  unfold predictTrajectory
  cases hn : (Int.ceil (duration / dt)).toNat with
  | zero => simp [predictAux]
  | succ m =>
    rw [predictAux_succ, if_pos hstop]
    simp

/-- A ball with planar speed just below `velocity_stop` but 10 rad/s of
rolling spin: the sliding-friction torque re-accelerates it. -/
def c9s : BallState := ⟨⟨0, 0, 0⟩, ⟨0.0019, 0, 0⟩, ⟨0, 0, 10⟩, Phase.stationary, 0⟩

lemma c9s_speed : speed c9s = 0.0019 := by
  unfold speed c9s
  dsimp only
  exact sqrt_eval (by norm_num) (by norm_num)

lemma c9s_angularSpeed : angularSpeed c9s = 10 := by
  unfold angularSpeed c9s
  dsimp only
  exact sqrt_eval (by norm_num) (by norm_num)

/-- Counterexample to C9 as stated: this ball's planar speed `0.0019` is
below `velocity_stop = 0.002`, yet `predictTrajectory` (default arguments
`duration = 2`, `dt = 0.01`) returns at least two samples: the spin keeps
the integrator's stop branch from firing and sliding friction accelerates
the ball to `0.002267875 m/s` in the first step. -/
theorem predictTrajectory_spin_counterexample :
    speed c9s < velocity_stop ∧ 2 ≤ (predictTrajectory c9s 2 0.01).length := by
  have hsp : speed c9s < velocity_stop := by
    rw [c9s_speed]
    unfold velocity_stop
    norm_num
  have hstop : ¬ (speed c9s < velocity_stop ∧ angularSpeed c9s < angular_stop) := by
    rintro ⟨-, ha⟩
    rw [c9s_angularSpeed] at ha
    unfold angular_stop at ha
    norm_num at ha
  have hsx : (slipVelocity c9s).x = -0.2606 := by
    unfold slipVelocity surfaceVelocity c9s ballRadius
    dsimp only
    norm_num
  have hsz : (slipVelocity c9s).z = 0 := by
    unfold slipVelocity surfaceVelocity c9s ballRadius
    dsimp only
    norm_num
  have hslip : slipSpeed c9s = 0.2606 := by
    unfold slipSpeed
    rw [hsx, hsz]
    exact sqrt_eval (by norm_num) (by norm_num)
  have hslide : slipSpeed c9s > slip_threshold := by
    rw [hslip]
    unfold slip_threshold
    norm_num
  have hsv : slidingVelocityUpdate c9s 0.01 = ⟨0.002267875, 0, 0⟩ := by
    unfold slidingVelocityUpdate
    rw [hsx, hsz, hslip]
    unfold c9s table_friction_slide gravity
    dsimp only
    simp only [Vec3.mk.injEq]
    norm_num
  have hw1y : (slidingOmegaUpdate c9s ⟨0.002267875, 0, 0⟩ 0.01).y = 0 := by
    unfold slidingOmegaUpdate
    dsimp only
    split_ifs <;> rfl
  have hupdv : (updateBallPhysics c9s 0.01).velocity = ⟨0.002267875, 0, 0⟩ := by
    unfold updateBallPhysics
    rw [if_neg hstop]
    dsimp only
    rw [if_pos hslide, if_pos hslide, hsv, hw1y, zero_mul, swerveUpdate_zero]
    unfold applyNapEffect
    dsimp only
    rw [show Real.sqrt ((0.002267875 : ℝ) * 0.002267875 + 0 * 0) = 0.002267875 from
      sqrt_eval (by norm_num) (by norm_num)]
    rw [if_pos (by norm_num)]
  have hns : ¬ speed (updateBallPhysics c9s 0.01) < velocity_stop := by
    unfold speed
    rw [hupdv]
    dsimp only
    rw [show Real.sqrt ((0.002267875 : ℝ) * 0.002267875 + 0 * 0) = 0.002267875 from
      sqrt_eval (by norm_num) (by norm_num)]
    unfold velocity_stop
    norm_num
  refine ⟨hsp, ?_⟩
  unfold predictTrajectory
  rw [show (Int.ceil ((2 : ℝ) / 0.01)).toNat = 200 from by
    rw [show Int.ceil ((2 : ℝ) / 0.01) = 200 from by norm_num]
    rfl]
  rw [show (200 : ℕ) = 199 + 1 from by norm_num, predictAux_succ, if_neg hns]
  have hlen : 1 ≤ (predictAux 199 (updateBallPhysics c9s 0.01) 0.01).length := by
    rw [show (199 : ℕ) = 198 + 1 from by norm_num, predictAux_succ]
    split_ifs <;> simp
  simp only [List.length_cons]
  omega

/-- A ball fully below both stop thresholds. -/
def c9w : BallState := ⟨⟨0.5, 0, 0.25⟩, ⟨0.001, 0, 0⟩, ⟨0.01, 0, 0⟩, Phase.rolling, 0⟩

/-- Witness for C9 (amended): on a ball below both stop thresholds the
predicted trajectory has at most one sample. -/
theorem predictTrajectory_short_witness :
    speed c9w < velocity_stop ∧ angularSpeed c9w < angular_stop ∧
    (predictTrajectory c9w 2 0.01).length ≤ 1 := by
  have h1 : speed c9w < velocity_stop := by
    have : speed c9w = 0.001 := by
      unfold speed c9w
      dsimp only
      exact sqrt_eval (by norm_num) (by norm_num)
    rw [this]
    unfold velocity_stop
    norm_num
  have h2 : angularSpeed c9w < angular_stop := by
    have : angularSpeed c9w = 0.01 := by
      unfold angularSpeed c9w
      dsimp only
      exact sqrt_eval (by norm_num) (by norm_num)
    rw [this]
    unfold angular_stop
    norm_num
  exact ⟨h1, h2, predictTrajectory_short c9w 2 0.01 h1 h2 (by norm_num) (by norm_num)⟩

end Bilard
